import Mathlib

/-!
Verification development for the `backer` incremental snapshot-replication
engine (Python sources under `lib/backer/`).  The Python modules are shallowly
embedded: pure value classes become structures, the stateful chain walk of
`Backup._backup` becomes a recursive function producing an explicit event
trace, filesystem / remote side effects become oracle parameters, and Python
attribute lookup on `Meta.Key` objects is modelled by an explicit partial
lookup function so that accesses to attributes the class never binds (an
`AttributeError` at run time) are visible as `none`.
-/

set_option maxHeartbeats 1000000

namespace Backer

/-- Engine version constant, `common.py` line 8: `VERSION='10'`. -/
def VERSION : String := "10"

/-- `Meta.Key` from `common.py` lines 15-21.  `__init__(self, fsguid, id_, sid, n)`
binds exactly the attributes `fsguid`, `id`, `sid`, `n` (note: `self.id = id_`,
there is no attribute `id_`).  The class is used duck-typed in the source; the
`id` slot is whatever object the caller passes for `id_`, hence the type
parameter `α` (in well-formed data it is the backup-id string). -/
structure Key (α : Type) where
  fsguid : String
  id : α
  sid : String
  n : Nat
deriving DecidableEq, Repr

/-- A primitive Python value carried by one of `Meta.Key`'s attributes, as read
through attribute lookup on a key whose `id` slot is a string. -/
inductive PyVal where
  | s : String → PyVal
  | nat : Nat → PyVal
deriving DecidableEq, Repr

/-- Python `"%s" % v` rendering of an attribute value. -/
def pyFormat : PyVal → String
  | PyVal.s v => v
  | PyVal.nat v => toString v

/-- Python attribute lookup on a `Meta.Key` instance: only the four names bound
in `Meta.Key.__init__` (`common.py` lines 17-21) resolve; any other name raises
`AttributeError`, modelled as `none`. -/
def Key.getattr (k : Key String) (a : String) : Option PyVal :=
  if a = "fsguid" then some (PyVal.s k.fsguid)
  else if a = "id" then some (PyVal.s k.id)
  else if a = "sid" then some (PyVal.s k.sid)
  else if a = "n" then some (PyVal.nat k.n)
  else none

/-- `Meta.Key.from_key(key, *, n=None)` from `common.py` lines 38-41:
`n = key.n if n is None else n; return Meta.Key(key.fsguid, key.id, key.sid, n)`. -/
def Key.from_key {α : Type} (key : Key α) (n : Option Nat) : Key α :=
  { fsguid := key.fsguid, id := key.id, sid := key.sid, n := n.getD key.n }

/-- `Meta.Key.create(fsguid, id_)` from `common.py` lines 43-46.  The series id
is `str(uuid.uuid4()).replace('-','')`, a fresh random value; the
nondeterministic draw is passed in as `freshSid`.  The generation number is 0. -/
def Key.create {α : Type} (fsguid : String) (id_ : α) (freshSid : String) : Key α :=
  { fsguid := fsguid, id := id_, sid := freshSid, n := 0 }

/-- `Meta` from `common.py` lines 48-54. -/
structure Meta (α : Type) where
  key : Key α
  fsname : String
  fscreation : Int
  hostname : String
  creation : Int
  sidcreation : Int
deriving DecidableEq, Repr

/-- The slice of a local filesystem handle that `Meta.create` consumes:
`str(fs.get('guid'))`, `fs.name` and `fs.get_creation()` (`zfs.py`). -/
structure FsInfo where
  guid : String
  name : String
  creation : Int
deriving DecidableEq, Repr

/-- The identity surface of a remote backend (`fs.py` / `s3.py`): the class tag
`type_` and the identifying configuration map `cfg`. -/
structure Remote where
  type_ : String
  cfg : List (String × String)
deriving DecidableEq, Repr

/-- `Meta.create(fs, id_)` from `common.py` lines 95-100.  It always fabricates
a brand new key via `Meta.Key.create(str(fs.get('guid')), id_)`: a fresh random
sid and `n = 0`, with the `id_` argument stored in the key's `id` slot.
`utcnow()` and `socket.gethostname()` are passed in as `now` / `hostname`. -/
def Meta.create {α : Type} (fs : FsInfo) (id_ : α) (freshSid : String) (now : Int)
    (hostname : String) : Meta α :=
  { key := Key.create fs.guid id_ freshSid
    fsname := fs.name
    fscreation := fs.creation
    hostname := hostname
    creation := now
    sidcreation := now }

/-- The state blob persisted in the `backer:state` snapshot property,
`backer.py` lines 19-26.  `remote_state` is backend-private bookkeeping, opaque
to the claims below. -/
structure State (α : Type) where
  meta : Meta α
  stored : Bool
  remote_type : String
  remote_cfg : List (String × String)
  remote_state : Option Unit
deriving DecidableEq, Repr

/-- `State.create(fs, metakey, remote)` from `backer.py` lines 44-47:
`State(Meta.create(fs, metakey), False, remote.type_, remote.cfg, None)`.
The whole `metakey` object is passed to `Meta.create` as its `id_` parameter,
so the resulting meta's key has the given key stuffed into its `id` slot, a
fresh sid and `n = 0` — its element type is `Key (Key String)`. -/
def State.create (fs : FsInfo) (metakey : Key String) (remote : Remote)
    (freshSid : String) (now : Int) (hostname : String) : State (Key String) :=
  { meta := Meta.create fs metakey freshSid now hostname
    stored := false
    remote_type := remote.type_
    remote_cfg := remote.cfg
    remote_state := none }

/-- `Backsnap.name(metakey)` from `backer.py` lines 83-85:
`"backer:%s-%s-%s-%s" % (VERSION, metakey.id_, metakey.sid, metakey.n)`.
The `id_` attribute is looked up on the key object; `Meta.Key` binds `id`,
not `id_`, so the lookup is modelled through `Key.getattr`. -/
def Backsnap.name (metakey : Key String) : Option String := do
  let i ← metakey.getattr "id_"
  let s ← metakey.getattr "sid"
  let nv ← metakey.getattr "n"
  pure ("backer:" ++ VERSION ++ "-" ++ pyFormat i ++ "-" ++ pyFormat s ++ "-" ++ pyFormat nv)

/-- `Backsnap.validate_remote(remote)` from `backer.py` lines 59-63: raise
unless the given remote's `type_` and `cfg` both equal the values recorded in
the persisted state. -/
def Backsnap.validate_remote (st : State String) (remote : Remote) : Except Unit Unit :=
  if remote.type_ ≠ st.remote_type then Except.error ()
  else if remote.cfg ≠ st.remote_cfg then Except.error ()
  else Except.ok ()

/-- A `Backsnap` as the chain walk of `Backup._backup` sees it: a local
snapshot carrying a parsed state blob (`backer.py` lines 49-55).  Well-formed
on-disk states have a string in the key's `id` slot. -/
structure Bsnap where
  state : State String
deriving DecidableEq, Repr

/-- `backsnap.meta.key` (`backer.py` line 55: `self.meta = self._state.meta`). -/
def Bsnap.key (b : Bsnap) : Key String := b.state.meta.key

/-- `backsnap.is_stored()` from `backer.py` lines 72-73. -/
def Bsnap.is_stored (b : Bsnap) : Bool := b.state.stored

/-- Effect of a successful `backsnap.set_stored(True)` (`backer.py` lines
75-77): the persisted state is rewritten with `stored = true`. -/
def markStored (b : Bsnap) : Bsnap :=
  { b with state := { b.state with stored := true } }

/-- One observable side effect of the chain walk in `Backup._backup`
(`backer.py` lines 167-184).  `put_data prev k` is the streamed pipeline of
`snapshot.send` into `remote.put_data` for key `k`: a baseline send when
`prev = none`, an incremental send from the generation with key `prev`
otherwise. -/
inductive Ev where
  | put_data : Option (Key String) → Key String → Ev
  | put_meta : Key String → Ev
  | index : Key String → Ev
  | set_stored : Key String → Ev
  | destroy : Key String → Ev
deriving DecidableEq, Repr

/-- The sequence of steps the spec prescribes for storing one not-yet-stored
generation: the send/`put_data` pipeline, then `put_meta`, then `index` only
for the last element of the chain, then `set_stored(true)` last. -/
def storeBlock (prev : Option (Key String)) (k : Key String) (isLast : Bool) : List Ev :=
  [Ev.put_data prev k, Ev.put_meta k] ++ (if isLast then [Ev.index k] else []) ++ [Ev.set_stored k]

/-- Result of running the chain walk: the trace of completed side effects, the
local snapshots that still exist afterwards (with their updated state blobs),
whether the walk ran to completion, and, when a store step of some generation
raised, that generation (with its unchanged state). -/
structure WalkRes where
  trace : List Ev
  survivors : List Bsnap
  success : Bool
  failedGen : Option Bsnap
deriving DecidableEq, Repr

/-- The chain walk of `Backup._backup`, `backer.py` lines 167-184, with every
remote / snapshot side effect abstracted by the oracle `ok` (an event with
`ok e = false` raises; a raised exception aborts the walk and completed events
are exactly the trace).  For each generation in order: if it is not stored,
run its store block; then destroy `previous` when there is one; recurse with
the current generation as `previous`. -/
def walk (ok : Ev → Bool) : Option Bsnap → List Bsnap → WalkRes
  | prev, [] => ⟨[], prev.toList, true, none⟩
  | prev, g :: rest =>
    let block := if g.is_stored then [] else storeBlock (prev.map Bsnap.key) g.key rest.isEmpty
    if block.all ok then
      let g2 := if g.is_stored then g else markStored g
      match prev with
      | none =>
        let r := walk ok (some g2) rest
        ⟨block ++ r.trace, r.survivors, r.success, r.failedGen⟩
      | some p =>
        if ok (Ev.destroy p.key) then
          let r := walk ok (some g2) rest
          ⟨block ++ Ev.destroy p.key :: r.trace, r.survivors, r.success, r.failedGen⟩
        else ⟨block, p :: g2 :: rest, false, none⟩
    else ⟨block.takeWhile ok, prev.toList ++ g :: rest, false, some g⟩

/-- The event order the spec claims for the chain walk, written out from the
spec's words (data → meta → index-only-for-last → set_stored, destroying the
previous generation afterwards): the reference to compare `walk` against. -/
def specTrace : Option (Key String) → List Bsnap → List Ev
  | _, [] => []
  | prev, g :: rest =>
    (if g.is_stored then [] else storeBlock prev g.key rest.isEmpty)
      ++ (match prev with
          | none => []
          | some pk => [Ev.destroy pk])
      ++ specTrace (some g.key) rest

/-- Step 1 of `Backup._backup`, `backer.py` lines 156-165: choose or extend a
series.  `mk` abstracts `Backsnap.create(fs, remote, metakey)` (its internal
behaviour is modelled separately by `State.create` / `Backsnap.name`);
`isCurrent` is the value of `latest.snapshot.check_is_current()`; `freshSid`
is the uuid draw of `Meta.Key.create`. -/
def selectChain (mk : Key String → Bsnap) (fsguid id_ freshSid : String) (remote : Remote)
    (force isCurrent : Bool) (chain : List Bsnap) : Except Unit (List Bsnap) :=
  match chain.getLast? with
  | none => Except.ok [mk (Key.create fsguid id_ freshSid)]
  | some latest =>
    if force || !isCurrent then
      let metakey := Key.from_key latest.key (some (latest.key.n + 1))
      match Backsnap.validate_remote latest.state remote with
      | Except.error e => Except.error e
      | Except.ok _ => Except.ok (chain ++ [mk metakey])
    else Except.ok chain

/-- `Backup._backup`, `backer.py` lines 155-184: series selection followed by
the chain walk, on the chain returned by `get_latest_backsnaps`. -/
def backupRun (mk : Key String → Bsnap) (fsguid id_ freshSid : String) (remote : Remote)
    (force isCurrent : Bool) (chain : List Bsnap) (ok : Ev → Bool) : Except Unit WalkRes :=
  match selectChain mk fsguid id_ freshSid remote force isCurrent chain with
  | Except.error e => Except.error e
  | Except.ok chain2 => Except.ok (walk ok none chain2)

/-- The loop of `restore`, `backer.py` lines 190-195: for `n in
range(latest_meta.key.n + 1)`, pipe `remote.get_data(metakey, ...)` into
`local.recv(restore_fsname, ...)`.  Each completed iteration is recorded as
the pair (target filesystem name, key streamed into it), in iteration order. -/
def restoreLoop (fsname : String) (base : Key String) : Nat → List (String × Key String)
  | 0 => []
  | Nat.succ m => restoreLoop fsname base m ++ [(fsname, Key.from_key base (some m))]

/-- `restore(local, remote, meta_discovery, fsguid, id_, restore_fsname)`,
`backer.py` lines 186-195.  `meta_discovery` abstracts
`remote.get_current_meta` (`fs.py` lines 153-157), which yields no Meta when
the head pointer object is absent. -/
def restore (meta_discovery : String → String → Option (Meta String))
    (fsguid id_ restore_fsname : String) : Except Unit (List (String × Key String)) :=
  match meta_discovery fsguid id_ with
  | none => Except.error ()
  | some latest_meta => Except.ok (restoreLoop restore_fsname latest_meta.key (latest_meta.key.n + 1))

/-- One native snapshot as `get_all_backsnaps` reads it (`backer.py` lines
95-113): the value of the `backer:version` property as listed by
`fs.list_snapshots(keys=[VERSION_PROP])` (absent properties are simply absent),
the parsed state blob of the snapshot, and the native creation timestamp. -/
structure SnapRec where
  version_prop : Option String
  state : State String
  creation : Int
deriving DecidableEq, Repr

/-- Stable ascending insertion by native creation timestamp, modelling
Python's `sorted(backsnaps, key=lambda x: x.snapshot.get_creation())`. -/
def insertByCreation (s : SnapRec) : List SnapRec → List SnapRec
  | [] => [s]
  | t :: ts => if s.creation < t.creation then s :: t :: ts else t :: insertByCreation s ts

/-- Sort a group ascending by creation timestamp. -/
def sortByCreation (l : List SnapRec) : List SnapRec :=
  l.foldr insertByCreation []

/-- `unsorted_backsnaps[sid].append(backsnap)` with dict insertion order,
`backer.py` lines 106-109, on an association list of groups. -/
def addToGroup (sid : String) (s : SnapRec) :
    List (String × List SnapRec) → List (String × List SnapRec)
  | [] => [(sid, [s])]
  | (k, l) :: rest => if k = sid then (k, l ++ [s]) :: rest else (k, l) :: addToGroup sid s rest

/-- The filtering loop of `get_all_backsnaps`, `backer.py` lines 97-109:
skip snapshots without the version property or with a version other than
`VERSION`; then evaluate `backsnap.meta.key.id_ != id_`.  `Meta.Key` binds
`id`, not `id_`, so that attribute read raises `AttributeError` (`none` from
`Key.getattr`), modelled as `Except.error`. -/
def collectGroups (id_ : String) (acc : List (String × List SnapRec)) :
    List SnapRec → Except Unit (List (String × List SnapRec))
  | [] => Except.ok acc
  | s :: rest =>
    if s.version_prop = some VERSION then
      match s.state.meta.key.getattr "id_" with
      | none => Except.error ()
      | some v =>
        if v = PyVal.s id_ then collectGroups id_ (addToGroup s.state.meta.key.sid s acc) rest
        else collectGroups id_ acc rest
    else collectGroups id_ acc rest

/-- `get_all_backsnaps(fs, id_)`, `backer.py` lines 95-113: filter and group
the snapshots, then sort each group ascending by native creation timestamp. -/
def get_all_backsnaps (snaps : List SnapRec) (id_ : String) :
    Except Unit (List (String × List SnapRec)) :=
  (collectGroups id_ [] snaps).map (fun groups => groups.map (fun p => (p.1, sortByCreation p.2)))

/-- The selection loop of `get_latest_backsnaps`, `backer.py` lines 119-123:
keep the group member `backsnaps[-1]` with the newest creation. -/
def pickLatest : Option SnapRec → List (String × List SnapRec) → Option SnapRec
  | best, [] => best
  | best, (_, l) :: rest =>
    match l.getLast? with
    | none => pickLatest best rest
    | some b =>
      match best with
      | none => pickLatest (some b) rest
      | some cur => if cur.creation < b.creation then pickLatest (some b) rest
                    else pickLatest (some cur) rest

/-- `all_backsnaps[latest_backsnap.meta.key.sid]` dict access. -/
def lookupGroup (sid : String) : List (String × List SnapRec) → List SnapRec
  | [] => []
  | (k, l) :: rest => if k = sid then l else lookupGroup sid rest

/-- `get_latest_backsnaps(fs, id_)`, `backer.py` lines 117-126: the group whose
last member has the newest creation, the empty list when there are none. -/
def get_latest_backsnaps (snaps : List SnapRec) (id_ : String) :
    Except Unit (List SnapRec) :=
  (get_all_backsnaps snaps id_).map (fun all =>
    match pickLatest none all with
    | none => []
    | some b => lookupGroup b.state.meta.key.sid all)

/-- Python `root.startswith('/')` on strings, used by `FsRemote.__init__`. -/
def pyStartswith (s p : String) : Bool :=
  p.data.isPrefixOf s.data

/-- The directory remote, `fs.py` lines 11-21: only the `root` field. -/
structure FsRemote where
  root : String
deriving DecidableEq, Repr

/-- `FsRemote.__init__(root)`, `fs.py` lines 15-21: raise unless the root is
absolute, otherwise record it (the `cfg` map is derived below). -/
def FsRemote.create (root : String) : Option FsRemote :=
  if !(pyStartswith root "/") then none else some ⟨root⟩

/-- The class attribute `type_ = 'fs'`, `fs.py` line 13. -/
def FsRemote.type_ : String := "fs"

/-- `self.cfg = {'root': root}`, `fs.py` lines 19-21. -/
def FsRemote.cfg (r : FsRemote) : List (String × String) := [("root", r.root)]

/-- The identity surface `(type_, cfg)` of a constructed `FsRemote`, as
consumed by `Backsnap.validate_remote`. -/
def FsRemote.remote (r : FsRemote) : Remote := ⟨FsRemote.type_, r.cfg⟩

/-- `FsRemote._get_path`, `fs.py` lines 23-26 (directory creation ignored). -/
def FsRemote.get_path (r : FsRemote) : String := r.root ++ "/" ++ VERSION

/-- `FsRemote._get_fs_path(fsid)`, `fs.py` lines 28-31. -/
def FsRemote.get_fs_path (r : FsRemote) (fsid : String) : String :=
  r.get_path ++ "/fs/" ++ fsid ++ ".fs"

/-- `FsRemote._get_backup_path(fsid, bid)`, `fs.py` lines 33-36. -/
def FsRemote.get_backup_path (r : FsRemote) (fsid bid : String) : String :=
  r.get_fs_path fsid ++ "/backup/" ++ bid ++ ".backup"

/-- `FsRemote._get_series_path(fsid, bid, sid)`, `fs.py` lines 38-41. -/
def FsRemote.get_series_path (r : FsRemote) (fsid bid sid : String) : String :=
  r.get_backup_path fsid bid ++ "/series/" ++ sid ++ ".series"

/-- `FsRemote._get_data_path(fsid, bid, sid)`, `fs.py` lines 43-46. -/
def FsRemote.get_data_path (r : FsRemote) (fsid bid sid : String) : String :=
  r.get_series_path fsid bid sid ++ "/data"

/-- `FsRemote._get_data_datapath(metakey)`, `fs.py` lines 53-55:
`"%s/%s.data.xz" % (self._get_data_path(metakey.fsid, metakey.bid, metakey.sid), metakey.n)`.
The attribute reads `metakey.fsid` and `metakey.bid` go through `Key.getattr`;
`Meta.Key` binds `fsguid` and `id`, so they raise `AttributeError` (`none`). -/
def FsRemote.get_data_datapath (r : FsRemote) (metakey : Key String) : Option String := do
  let f ← metakey.getattr "fsid"
  let b ← metakey.getattr "bid"
  let s ← metakey.getattr "sid"
  let nv ← metakey.getattr "n"
  pure (r.get_data_path (pyFormat f) (pyFormat b) (pyFormat s) ++ "/" ++ pyFormat nv ++ ".data.xz")

/-- `FsRemote._get_data_metapath(metakey)`, `fs.py` lines 57-59. -/
def FsRemote.get_data_metapath (r : FsRemote) (metakey : Key String) : Option String := do
  let f ← metakey.getattr "fsid"
  let b ← metakey.getattr "bid"
  let s ← metakey.getattr "sid"
  let nv ← metakey.getattr "n"
  pure (r.get_data_path (pyFormat f) (pyFormat b) (pyFormat s) ++ "/" ++ pyFormat nv ++ ".meta")

/-- What a successful `FsRemote` write would leave at a path: either the
LZMA-compressed bytes of a stream (`put_data`, `fs.py` lines 71-77) or the
UTF-8 JSON rendering of a Meta's canonical map (`put_meta` / `_put_meta`,
`fs.py` lines 79-85, serialisation modelled abstractly by the Meta value). -/
inductive Payload where
  | lzmaStream : List Nat → Payload
  | metaJson : Meta String → Payload
deriving DecidableEq, Repr

/-- `FsRemote.put_data(metakey, stream)`, `fs.py` lines 71-77: compute the data
path for the key, then write the LZMA-compressed stream there. -/
def FsRemote.put_data (r : FsRemote) (metakey : Key String) (stream : List Nat) :
    Option (String × Payload) :=
  (r.get_data_datapath metakey).map (fun p => (p, Payload.lzmaStream stream))

/-- `FsRemote.put_meta(meta)`, `fs.py` lines 79-85: compute the sidecar path
for `meta.key`, then write the UTF-8 JSON of the canonical Meta map there. -/
def FsRemote.put_meta (r : FsRemote) (m : Meta String) : Option (String × Payload) :=
  (r.get_data_metapath m.key).map (fun p => (p, Payload.metaJson m))

/-- Adjacency in a list of keys: `b` is the immediate successor of `a`. -/
def adjKeys (keys : List (Key String)) (a b : Key String) : Prop :=
  ∃ l1 l2, keys = l1 ++ a :: b :: l2

/-- Oracle under which every side effect succeeds. -/
def okAll : Ev → Bool := fun _ => true

/-- A concrete directory-remote identity for witnesses. -/
def demoRemote : Remote := ⟨"fs", [("root", "/b")]⟩

/-- A concrete Meta for the given key, for witnesses. -/
def demoMetaOf (k : Key String) : Meta String := ⟨k, "tank/data", 100, "host1", 200, 200⟩

/-- A concrete freshly-created (unstored) Backsnap for the given key. -/
def demoMk (k : Key String) : Bsnap := ⟨⟨demoMetaOf k, false, "fs", [("root", "/b")], none⟩⟩

/-- A concrete already-stored Backsnap for the given key. -/
def demoStoredB (k : Key String) : Bsnap := ⟨⟨demoMetaOf k, true, "fs", [("root", "/b")], none⟩⟩

/-- The baseline key of a cold-start run with guid `g`, id `default`, sid `s1`. -/
def k0 : Key String := ⟨"g", "default", "s1", 0⟩

/-- The outcome of a cold-start `backupRun` under `okAll` (checked by `rfl`
in the idempotence witness). -/
def res0 : WalkRes :=
  ⟨[Ev.put_data none k0, Ev.put_meta k0, Ev.index k0, Ev.set_stored k0],
   [markStored (demoMk k0)], true, none⟩

/-- A concrete two-generation chain (both unstored) for witnesses. -/
def demoChain2 : List Bsnap := [demoMk k0, demoMk ⟨"g", "default", "s1", 1⟩]

/-- A concrete well-formed snapshot record carrying the current VERSION. -/
def demoSnapRec : SnapRec := ⟨some VERSION, (demoStoredB k0).state, 300⟩

/-- The same snapshot record under an older version property. -/
def demoSnapRecOld : SnapRec := ⟨some "9", (demoStoredB k0).state, 300⟩

/-- A state rewrite that sets `stored := true` on an already-stored Backsnap
changes nothing. -/
theorem markStored_of_stored (g : Bsnap) (h : g.is_stored = true) : markStored g = g := by
  cases g with
  | mk st =>
    cases st with
    | mk m s rt rc rs =>
      simp only [Bsnap.is_stored] at h
      simp [markStored, h]

/-- `markStored` preserves the key. -/
theorem markStored_key (g : Bsnap) : (markStored g).key = g.key := rfl

/-- `markStored` leaves the snapshot stored. -/
@[simp] theorem markStored_stored (g : Bsnap) : (markStored g).is_stored = true := rfl

/-- The walk's updated generation is `markStored` in both branches. -/
theorem g2_eq_markStored (g : Bsnap) : (if g.is_stored then g else markStored g) = markStored g := by
  cases h : g.is_stored
  · simp
  · simp [markStored_of_stored g h]

/-- Store blocks contain no destroy events. -/
theorem destroy_not_mem_storeBlock (prevK : Option (Key String)) (k pk : Key String)
    (isLast : Bool) : Ev.destroy pk ∉ storeBlock prevK k isLast := by
  cases isLast <;> simp [storeBlock]

/-- Under an all-success oracle every block passes. -/
theorem all_ok_of_ok (ok : Ev → Bool) (hok : ∀ e, ok e = true) (l : List Ev) :
    l.all ok = true :=
  List.all_eq_true.mpr fun x _ => hok x

/-- Under an all-success oracle, the walk's trace is exactly the claimed order
of events. -/
theorem walk_trace_of_ok (ok : Ev → Bool) (hok : ∀ e, ok e = true) (gens : List Bsnap) :
    ∀ prev : Option Bsnap, (walk ok prev gens).trace = specTrace (prev.map Bsnap.key) gens := by
  induction gens with
  | nil => intro prev; rfl
  | cons g rest ih =>
    intro prev
    cases prev <;>
      simp [walk, all_ok_of_ok ok hok, hok, g2_eq_markStored, specTrace, ih, markStored_key]

/-- Under an all-success oracle the walk completes with no failing generation. -/
theorem walk_ok_success (ok : Ev → Bool) (hok : ∀ e, ok e = true) (gens : List Bsnap) :
    ∀ prev : Option Bsnap,
      (walk ok prev gens).success = true ∧ (walk ok prev gens).failedGen = none := by
  induction gens with
  | nil => intro prev; exact ⟨rfl, rfl⟩
  | cons g rest ih =>
    intro prev
    cases prev <;>
      simp [walk, all_ok_of_ok ok hok, hok, g2_eq_markStored, ih]

/-- When the head generation's block passes and the pending destroy (if any)
succeeds, the walk's outcome fields are those of the recursive walk. -/
theorem walk_cons_rec (ok : Ev → Bool) (prev : Option Bsnap) (g : Bsnap) (rest : List Bsnap)
    (hall : ((if g.is_stored then [] else
        storeBlock (prev.map Bsnap.key) g.key rest.isEmpty).all ok) = true)
    (hd : ∀ p ∈ prev, ok (Ev.destroy p.key) = true) :
    (walk ok prev (g :: rest)).survivors = (walk ok (some (markStored g)) rest).survivors
    ∧ (walk ok prev (g :: rest)).success = (walk ok (some (markStored g)) rest).success
    ∧ (walk ok prev (g :: rest)).failedGen = (walk ok (some (markStored g)) rest).failedGen := by
  cases prev with
  | none =>
    simp only [Option.map_none'] at hall
    simp [walk, hall, g2_eq_markStored]
  | some p =>
    have hdp := hd p rfl
    simp only [Option.map_some'] at hall
    simp [walk, hall, hdp, g2_eq_markStored]

/-- The trace of one successful step: the head's block, then the destroy of the
previous generation when there is one, then the recursive trace. -/
theorem walk_cons_trace (ok : Ev → Bool) (prev : Option Bsnap) (g : Bsnap) (rest : List Bsnap)
    (hall : ((if g.is_stored then [] else
        storeBlock (prev.map Bsnap.key) g.key rest.isEmpty).all ok) = true)
    (hd : ∀ p ∈ prev, ok (Ev.destroy p.key) = true) :
    (walk ok prev (g :: rest)).trace
      = (if g.is_stored then [] else storeBlock (prev.map Bsnap.key) g.key rest.isEmpty)
        ++ (prev.map (fun p => Ev.destroy p.key)).toList
        ++ (walk ok (some (markStored g)) rest).trace := by
  cases prev with
  | none =>
    simp only [Option.map_none'] at hall
    simp [walk, hall, g2_eq_markStored]
  | some p =>
    have hdp := hd p rfl
    simp only [Option.map_some'] at hall
    simp [walk, hall, hdp, g2_eq_markStored]

/-- A generation whose store step raised keeps `stored = false` and is still a
surviving local snapshot. -/
theorem walk_failed_unstored (ok : Ev → Bool) (gens : List Bsnap) :
    ∀ (prev : Option Bsnap) (gf : Bsnap), (walk ok prev gens).failedGen = some gf →
      gf.is_stored = false ∧ gf ∈ (walk ok prev gens).survivors := by
  induction gens with
  | nil => intro prev gf h; simp [walk] at h
  | cons g rest ih =>
    intro prev gf h
    by_cases hall : ((if g.is_stored then [] else
        storeBlock (prev.map Bsnap.key) g.key rest.isEmpty).all ok) = true
    · cases prev with
      | none =>
        simp only [Option.map_none'] at hall
        have hrec := walk_cons_rec ok none g rest hall (by intro p hp; simp at hp)
        rw [hrec.2.2] at h
        obtain ⟨h1, h2⟩ := ih _ _ h
        exact ⟨h1, by rw [hrec.1]; exact h2⟩
      | some p =>
        simp only [Option.map_some'] at hall
        by_cases hdok : ok (Ev.destroy p.key) = true
        · have hrec := walk_cons_rec ok (some p) g rest hall
            (by intro q hq; simp only [Option.mem_def, Option.some.injEq] at hq; subst hq; exact hdok)
          rw [hrec.2.2] at h
          obtain ⟨h1, h2⟩ := ih _ _ h
          exact ⟨h1, by rw [hrec.1]; exact h2⟩
        · rw [Bool.not_eq_true] at hdok
          simp [walk, hall, hdok] at h
    · rw [Bool.not_eq_true] at hall
      have hstored : g.is_stored = false := by
        cases hst : g.is_stored
        · rfl
        · rw [hst] at hall; simp at hall
      have hwalk : walk ok prev (g :: rest)
          = ⟨(if g.is_stored then [] else
                storeBlock (prev.map Bsnap.key) g.key rest.isEmpty).takeWhile ok,
             prev.toList ++ g :: rest, false, some g⟩ := by
        simp [walk, hall]
      rw [hwalk] at h ⊢
      simp only [Option.some.injEq] at h
      subst h
      exact ⟨hstored, by simp⟩

/-- After a completed walk the surviving snapshots are exactly the stored
version of the last generation. -/
theorem walk_survivors_of_success (ok : Ev → Bool) (gens : List Bsnap) :
    ∀ (prev : Option Bsnap) (l : Bsnap), gens.getLast? = some l →
      (walk ok prev gens).success = true →
      (walk ok prev gens).survivors = [markStored l] := by
  induction gens with
  | nil => intro prev l hl _; simp at hl
  | cons g rest ih =>
    intro prev l hl hs
    by_cases hall : ((if g.is_stored then [] else
        storeBlock (prev.map Bsnap.key) g.key rest.isEmpty).all ok) = true
    · have hd : ∀ p ∈ prev, ok (Ev.destroy p.key) = true := by
        intro p hp
        simp only [Option.mem_def] at hp
        subst hp
        simp only [Option.map_some'] at hall
        by_contra hdf
        rw [Bool.not_eq_true] at hdf
        simp [walk, hall, hdf] at hs
      have hrec := walk_cons_rec ok prev g rest hall hd
      rw [hrec.1]
      cases rest with
      | nil =>
        simp only [List.getLast?_singleton, Option.some.injEq] at hl
        subst hl
        simp [walk]
      | cons r0 rtl =>
        rw [List.getLast?_cons_cons] at hl
        exact ih (some (markStored g)) l hl (by rw [← hrec.2.1]; exact hs)
    · rw [Bool.not_eq_true] at hall
      exfalso
      simp [walk, hall] at hs

/-- Adjacency is preserved under prepending context. -/
theorem adjKeys_prepend (x : List (Key String)) {t : List (Key String)} {a b : Key String}
    (h : adjKeys t a b) : adjKeys (x ++ t) a b := by
  obtain ⟨l1, l2, rfl⟩ := h
  exact ⟨x ++ l1, l2, by simp⟩

/-- The head generation's (possibly empty) store block contains no destroys. -/
theorem destroy_not_mem_block (g : Bsnap) (prevK : Option (Key String)) (isLast : Bool)
    (pk : Key String) :
    Ev.destroy pk ∉ (if g.is_stored then [] else storeBlock prevK g.key isLast) := by
  cases hst : g.is_stored
  · simp only [hst, Bool.false_eq_true, if_false]
    exact destroy_not_mem_storeBlock prevK g.key pk isLast
  · simp [hst]

/-- The pair (final `set_stored` of a block, following destroy) is an ordered
subsequence of the block followed by that destroy. -/
theorem sublist_block_destroy (prevK : Option (Key String)) (k : Key String) (isLast : Bool)
    (d : Ev) (R : List Ev) :
    [Ev.set_stored k, d].Sublist ((storeBlock prevK k isLast ++ [d]) ++ R) := by
  have base : [Ev.set_stored k, d].Sublist (Ev.set_stored k :: d :: R) :=
    ((List.nil_sublist R).cons₂ d).cons₂ (Ev.set_stored k)
  cases isLast with
  | false => exact (base.cons _).cons _
  | true => exact ((base.cons _).cons _).cons _

/-- Every destroy in a walk's trace destroys the immediate predecessor of some
chain element that was already stored on entry or whose `set_stored` completed
earlier in the trace. -/
theorem walk_destroy_adj (ok : Ev → Bool) (gens : List Bsnap) :
    ∀ (prev : Option Bsnap) (pk : Key String),
      Ev.destroy pk ∈ (walk ok prev gens).trace →
      ∃ g2, g2 ∈ gens ∧ adjKeys ((prev.toList ++ gens).map Bsnap.key) pk g2.key ∧
        (g2.is_stored = true ∨
          [Ev.set_stored g2.key, Ev.destroy pk].Sublist (walk ok prev gens).trace) := by
  induction gens with
  | nil => intro prev pk h; simp [walk] at h
  | cons g rest ih =>
    intro prev pk h
    by_cases hall : ((if g.is_stored then [] else
        storeBlock (prev.map Bsnap.key) g.key rest.isEmpty).all ok) = true
    · cases prev with
      | none =>
        simp only [Option.map_none'] at hall
        have htr := walk_cons_trace ok none g rest hall (by intro p hp; simp at hp)
        simp only [Option.map_none', Option.toList_none, List.append_nil] at htr
        rw [htr] at h
        rcases List.mem_append.mp h with hb | hr
        · exact absurd hb (destroy_not_mem_block g none rest.isEmpty pk)
        · obtain ⟨g2, hmem, hadj, hdisj⟩ := ih (some (markStored g)) pk hr
          refine ⟨g2, List.mem_cons_of_mem g hmem, by simpa [markStored_key] using hadj, ?_⟩
          cases hdisj with
          | inl hstored => exact Or.inl hstored
          | inr hsub =>
            refine Or.inr ?_
            rw [htr]
            exact hsub.trans (List.sublist_append_right _ _)
      | some p =>
        simp only [Option.map_some'] at hall
        by_cases hdok : ok (Ev.destroy p.key) = true
        · have htr := walk_cons_trace ok (some p) g rest hall
            (by intro q hq; simp only [Option.mem_def, Option.some.injEq] at hq
                subst hq; exact hdok)
          simp only [Option.map_some', Option.toList_some] at htr
          rw [htr] at h
          rcases List.mem_append.mp h with hbl | hr
          · rcases List.mem_append.mp hbl with hb | hd1
            · exact absurd hb (destroy_not_mem_block g (some p.key) rest.isEmpty pk)
            · have hpk : pk = p.key := by
                simp only [List.mem_singleton, Ev.destroy.injEq] at hd1
                exact hd1
              refine ⟨g, List.mem_cons_self g rest, ?_, ?_⟩
              · exact ⟨[], List.map Bsnap.key rest, by simp [hpk]⟩
              · cases hst : g.is_stored
                · refine Or.inr ?_
                  rw [htr, hpk]
                  simp only [hst, Bool.false_eq_true, if_false]
                  exact sublist_block_destroy (some p.key) g.key rest.isEmpty
                    (Ev.destroy p.key) (walk ok (some (markStored g)) rest).trace
                · exact Or.inl rfl
          · obtain ⟨g2, hmem, hadj, hdisj⟩ := ih (some (markStored g)) pk hr
            refine ⟨g2, List.mem_cons_of_mem g hmem, ?_, ?_⟩
            · have hadj2 := adjKeys_prepend [p.key] (t := (markStored g :: rest).map Bsnap.key) hadj
              simpa [markStored_key] using hadj2
            · cases hdisj with
              | inl hstored => exact Or.inl hstored
              | inr hsub =>
                refine Or.inr ?_
                rw [htr]
                exact hsub.trans (List.sublist_append_right _ _)
        · rw [Bool.not_eq_true] at hdok
          have hwalk : (walk ok (some p) (g :: rest)).trace
              = (if g.is_stored then [] else storeBlock (some p.key) g.key rest.isEmpty) := by
            simp [walk, hall, hdok]
          rw [hwalk] at h
          exact absurd h (destroy_not_mem_block g (some p.key) rest.isEmpty pk)
    · rw [Bool.not_eq_true] at hall
      have hwalk : (walk ok prev (g :: rest)).trace
          = (if g.is_stored then [] else
              storeBlock (prev.map Bsnap.key) g.key rest.isEmpty).takeWhile ok := by
        simp [walk, hall]
      rw [hwalk] at h
      have hb := (List.takeWhile_sublist ok).subset h
      exact absurd hb (destroy_not_mem_block g (prev.map Bsnap.key) rest.isEmpty pk)

/-- Every non-terminal generation's destroy appears in the claimed trace. -/
theorem specTrace_destroy_dropLast (gens : List Bsnap) :
    ∀ (prevk : Option (Key String)) (g : Bsnap), g ∈ gens.dropLast →
      Ev.destroy g.key ∈ specTrace prevk gens := by
  induction gens with
  | nil => intro _ g hg; simp at hg
  | cons g0 rest ih =>
    intro prevk g hg
    cases rest with
    | nil => simp at hg
    | cons r0 rtl =>
      have heq : specTrace prevk (g0 :: r0 :: rtl)
          = (if g0.is_stored then [] else storeBlock prevk g0.key (r0 :: rtl).isEmpty)
            ++ (match prevk with
                | none => []
                | some pk => [Ev.destroy pk])
            ++ specTrace (some g0.key) (r0 :: rtl) := rfl
      rw [List.dropLast_cons₂] at hg
      rcases List.mem_cons.mp hg with hg0 | hgr
      · subst hg0
        rw [heq]
        refine List.mem_append_right _ ?_
        have heq2 : specTrace (some g.key) (r0 :: rtl)
            = (if r0.is_stored then [] else storeBlock (some g.key) r0.key rtl.isEmpty)
              ++ [Ev.destroy g.key]
              ++ specTrace (some r0.key) rtl := rfl
        rw [heq2]
        exact List.mem_append_left _ (List.mem_append_right _ (by simp))
      · have hin := ih (some g0.key) g hgr
        rw [heq]
        exact List.mem_append_right _ hin

/-- Series selection never yields an empty chain. -/
theorem selectChain_ne_nil (mk : Key String → Bsnap) (fsguid id_ freshSid : String)
    (remote : Remote) (force isCurrent : Bool) (chain l : List Bsnap)
    (h : selectChain mk fsguid id_ freshSid remote force isCurrent chain = Except.ok l) :
    l ≠ [] := by
  unfold selectChain at h
  split at h
  · injection h with h
    subst h
    simp
  · split at h
    · split at h
      · cases h
      · injection h with h
        subst h
        simp
    · injection h with h
      subst h
      rename_i hgl _
      intro hnil
      subst hnil
      simp at hgl

/-- C1: contrary to the claim, the state blob persisted for a created Backsnap
does not hold the given key.  `State.create(fs, metakey, remote)` feeds the
whole key into `Meta.create`'s backup-id parameter, and `Meta.create` always
fabricates a fresh key via `Meta.Key.create`: evaluated at key
(guid-1, default, aaaa, n=1) with fresh uuid `ffff`, the persisted meta's key
has the given key stuffed into its `id` slot, the fresh sid `ffff` and `n = 0`;
only the non-key fields (stored=false, remote_type, remote_cfg,
remote_state=null) match the claim. -/
theorem c1_state_create_fabricates_key :
    (State.create ⟨"guid-1", "tank/data", 100⟩ ⟨"guid-1", "default", "aaaa", 1⟩
        demoRemote "ffff" 200 "host1").stored = false
    ∧ (State.create ⟨"guid-1", "tank/data", 100⟩ ⟨"guid-1", "default", "aaaa", 1⟩
        demoRemote "ffff" 200 "host1").remote_type = demoRemote.type_
    ∧ (State.create ⟨"guid-1", "tank/data", 100⟩ ⟨"guid-1", "default", "aaaa", 1⟩
        demoRemote "ffff" 200 "host1").remote_cfg = demoRemote.cfg
    ∧ (State.create ⟨"guid-1", "tank/data", 100⟩ ⟨"guid-1", "default", "aaaa", 1⟩
        demoRemote "ffff" 200 "host1").remote_state = none
    ∧ (State.create ⟨"guid-1", "tank/data", 100⟩ ⟨"guid-1", "default", "aaaa", 1⟩
        demoRemote "ffff" 200 "host1").meta.key.id = ⟨"guid-1", "default", "aaaa", 1⟩
    ∧ (State.create ⟨"guid-1", "tank/data", 100⟩ ⟨"guid-1", "default", "aaaa", 1⟩
        demoRemote "ffff" 200 "host1").meta.key.sid = "ffff"
    ∧ (State.create ⟨"guid-1", "tank/data", 100⟩ ⟨"guid-1", "default", "aaaa", 1⟩
        demoRemote "ffff" 200 "host1").meta.key.n = 0
    ∧ (State.create ⟨"guid-1", "tank/data", 100⟩ ⟨"guid-1", "default", "aaaa", 1⟩
        demoRemote "ffff" 200 "host1").meta.key.sid
        ≠ (⟨"guid-1", "default", "aaaa", 1⟩ : Key String).sid
    ∧ (State.create ⟨"guid-1", "tank/data", 100⟩ ⟨"guid-1", "default", "aaaa", 1⟩
        demoRemote "ffff" 200 "host1").meta.key.n
        ≠ (⟨"guid-1", "default", "aaaa", 1⟩ : Key String).n :=
  ⟨rfl, rfl, rfl, rfl, rfl, rfl, rfl, by decide, by decide⟩

/-- C2: in the chain walk, every unstored generation's steps run in the exact
order put_data (baseline when no previous generation, incremental otherwise),
put_meta, index only for the last chain element, then set_stored last (the
trace of an all-success walk is exactly `specTrace`, whose blocks are
`storeBlock`); and whenever a store step raises, the failing generation's
stored flag remains false on its surviving snapshot. -/
theorem c2_chain_walk_order_and_failure (ok : Ev → Bool) (chain : List Bsnap) :
    ((∀ e, ok e = true) → (walk ok none chain).trace = specTrace none chain)
    ∧ (∀ gf, (walk ok none chain).failedGen = some gf →
        gf.is_stored = false ∧ gf ∈ (walk ok none chain).survivors) := by
  constructor
  · intro hok
    simpa using walk_trace_of_ok ok hok chain none
  · intro gf h
    exact walk_failed_unstored ok chain none gf h

/-- Witness for C2 at a concrete two-generation chain under an all-success
oracle. -/
theorem c2_chain_walk_order_and_failure_witness :
    (walk okAll none demoChain2).trace = specTrace none demoChain2 :=
  (c2_chain_walk_order_and_failure okAll demoChain2).1 (fun _ => rfl)

/-- C3: a second `backup()` immediately after a successful run with no
intervening dataset change (`check_is_current` true, `force` absent) is a
no-op: the selection keeps the chain as-is, the walk emits no events (no
put_data/put_meta/index, no property rewrites, no destroys), and the local
snapshots are unchanged. -/
theorem c3_idempotent_rerun (mk : Key String → Bsnap)
    (fsguid id_ freshSid freshSid2 : String) (remote : Remote) (force isCurrent : Bool)
    (chain : List Bsnap) (ok ok2 : Ev → Bool) (res : WalkRes)
    (h1 : backupRun mk fsguid id_ freshSid remote force isCurrent chain ok = Except.ok res)
    (h2 : res.success = true) :
    backupRun mk fsguid id_ freshSid2 remote false true res.survivors ok2
      = Except.ok ⟨[], res.survivors, true, none⟩ := by
  unfold backupRun at h1
  cases hsel : selectChain mk fsguid id_ freshSid remote force isCurrent chain with
  | error e => rw [hsel] at h1; cases h1
  | ok chain2 =>
    rw [hsel] at h1
    injection h1 with h1
    have hne : chain2 ≠ [] :=
      selectChain_ne_nil mk fsguid id_ freshSid remote force isCurrent chain chain2 hsel
    obtain ⟨l, hl⟩ : ∃ l, chain2.getLast? = some l :=
      ⟨chain2.getLast hne, List.getLast?_eq_getLast chain2 hne⟩
    have hsurv : res.survivors = [markStored l] := by
      rw [← h1]
      exact walk_survivors_of_success ok chain2 none l hl (by rw [h1]; exact h2)
    rw [hsurv]
    unfold backupRun
    have hsel2 : selectChain mk fsguid id_ freshSid2 remote false true [markStored l]
        = Except.ok [markStored l] := by
      simp [selectChain]
    rw [hsel2]
    have hw : walk ok2 none [markStored l] = ⟨[], [markStored l], true, none⟩ := by
      simp [walk]
    show Except.ok (walk ok2 none [markStored l])
      = Except.ok (⟨[], [markStored l], true, none⟩ : WalkRes)
    rw [hw]

/-- Witness for C3: a concrete cold-start run followed by the no-op re-run. -/
theorem c3_idempotent_rerun_witness :
    backupRun demoMk "g" "default" "s2" demoRemote false true res0.survivors okAll
      = Except.ok ⟨[], res0.survivors, true, none⟩ :=
  c3_idempotent_rerun demoMk "g" "default" "s1" "s2" demoRemote false false [] okAll okAll
    res0 rfl rfl

/-- C4: a Backsnap is destroyed only after its immediate successor in the
chain has been stored (either it entered the walk with stored=true or its
set_stored completed earlier in the trace), and after a successful walk the
terminal Backsnap is the only local survivor while every earlier generation
has been destroyed. -/
theorem c4_destroy_after_successor_stored (ok : Ev → Bool) (chain : List Bsnap) :
    (∀ pk, Ev.destroy pk ∈ (walk ok none chain).trace →
      ∃ g2, g2 ∈ chain ∧ adjKeys (chain.map Bsnap.key) pk g2.key ∧
        (g2.is_stored = true ∨
          [Ev.set_stored g2.key, Ev.destroy pk].Sublist (walk ok none chain).trace))
    ∧ ((∀ e, ok e = true) →
        (∀ l, chain.getLast? = some l → (walk ok none chain).survivors = [markStored l])
        ∧ (∀ g ∈ chain.dropLast, Ev.destroy g.key ∈ (walk ok none chain).trace)) := by
  constructor
  · intro pk h
    simpa using walk_destroy_adj ok chain none pk h
  · intro hok
    constructor
    · intro l hl
      exact walk_survivors_of_success ok chain none l hl (walk_ok_success ok hok chain none).1
    · intro g hg
      rw [walk_trace_of_ok ok hok chain none]
      exact specTrace_destroy_dropLast chain none g hg

/-- Witness for C4 at a concrete two-generation chain: only the terminal
generation survives (stored) and the baseline generation is destroyed. -/
theorem c4_destroy_after_successor_stored_witness :
    (walk okAll none demoChain2).survivors
      = [markStored (demoMk ⟨"g", "default", "s1", 1⟩)]
    ∧ Ev.destroy (demoMk k0).key ∈ (walk okAll none demoChain2).trace := by
  have h := (c4_destroy_after_successor_stored okAll demoChain2).2 (fun _ => rfl)
  exact ⟨h.1 (demoMk ⟨"g", "default", "s1", 1⟩) rfl, h.2 (demoMk k0) (by decide)⟩

/-- C5: with a non-empty chain and (`force` or a failed currency check), step 1
of `_backup` validates the remote against the head's recorded
remote_type/remote_cfg (the two comparisons of `validate_remote`) and appends
exactly one new Backsnap, created from the key
(head.fsguid, head.bid, head.sid, head.n + 1); a validation failure aborts the
run with no append.  With `force = true` this holds regardless of the currency
check. -/
theorem c5_extend_series (mk : Key String → Bsnap) (fsguid id_ freshSid : String)
    (remote : Remote) (force isCurrent : Bool) (chain : List Bsnap) (head : Bsnap)
    (hlast : chain.getLast? = some head) (hgo : force = true ∨ isCurrent = false) :
    (Backsnap.validate_remote head.state remote = Except.ok () →
        selectChain mk fsguid id_ freshSid remote force isCurrent chain
          = Except.ok (chain ++ [mk (Key.from_key head.key (some (head.key.n + 1)))])
        ∧ Key.from_key head.key (some (head.key.n + 1))
          = { fsguid := head.key.fsguid, id := head.key.id, sid := head.key.sid,
              n := head.key.n + 1 })
    ∧ (Backsnap.validate_remote head.state remote = Except.error () →
        selectChain mk fsguid id_ freshSid remote force isCurrent chain = Except.error ())
    ∧ (Backsnap.validate_remote head.state remote = Except.ok ()
        ↔ remote.type_ = head.state.remote_type ∧ remote.cfg = head.state.remote_cfg) := by
  have hc : (force || !isCurrent) = true := by
    rcases hgo with h | h <;> simp [h]
  refine ⟨?_, ?_, ?_⟩
  · intro hv
    exact ⟨by simp [selectChain, hlast, hc, hv], rfl⟩
  · intro hv
    simp [selectChain, hlast, hc, hv]
  · unfold Backsnap.validate_remote
    by_cases h1 : remote.type_ = head.state.remote_type
    · by_cases h2 : remote.cfg = head.state.remote_cfg
      · simp [h1, h2]
      · simp [h1, h2]
    · simp [h1]

/-- Witness for C5: forcing an extension on a concrete stored head with a
matching remote appends exactly the n+1 generation. -/
theorem c5_extend_series_witness :
    selectChain demoMk "g" "default" "s2" demoRemote true true [demoStoredB k0]
      = Except.ok ([demoStoredB k0]
          ++ [demoMk (Key.from_key (demoStoredB k0).key (some ((demoStoredB k0).key.n + 1)))]) :=
  ((c5_extend_series demoMk "g" "default" "s2" demoRemote true true [demoStoredB k0]
      (demoStoredB k0) rfl (Or.inl rfl)).1 rfl).1

/-- C6: contrary to the claim, `get_all_backsnaps` cannot filter on the decoded
meta's backup id: as soon as one snapshot passes the version filter, the read
of `backsnap.meta.key.id_` (an attribute `Meta.Key` does not bind — it binds
`id`) raises `AttributeError`.  The version filter itself works (a snapshot
with version "9" is skipped) and with no matching snapshots
`get_latest_backsnaps` does return the empty list. -/
theorem c6_get_all_backsnaps_attribute_error :
    get_all_backsnaps [demoSnapRec] "default" = Except.error ()
    ∧ get_latest_backsnaps [demoSnapRec] "default" = Except.error ()
    ∧ get_all_backsnaps [demoSnapRecOld] "default" = Except.ok []
    ∧ get_latest_backsnaps [] "default" = Except.ok []
    ∧ Key.getattr demoSnapRec.state.meta.key "id_" = none :=
  ⟨rfl, rfl, rfl, rfl, rfl⟩

/-- C7: contrary to the claim, the directory remote cannot derive the object
path from a `Meta.Key`: `_get_data_datapath` reads `metakey.fsid` and
`metakey.bid`, attributes `Meta.Key` does not bind (it binds `fsguid` and
`id`), so `put_data` and `put_meta` raise `AttributeError` for every key.
With the four field values supplied directly, the path helpers do produce
exactly the claimed layout
`<root>/<VERSION>/fs/<fsid>.fs/backup/<bid>.backup/series/<sid>.series/data/<n>.data.xz`,
and a successful `put_data` would store the LZMA-compressed stream there. -/
theorem c7_fs_remote_paths :
    FsRemote.put_data ⟨"/b"⟩ k0 [7, 7] = none
    ∧ FsRemote.put_meta ⟨"/b"⟩ (demoMetaOf k0) = none
    ∧ FsRemote.get_data_datapath ⟨"/b"⟩ k0 = none
    ∧ Key.getattr k0 "fsid" = none
    ∧ Key.getattr k0 "bid" = none
    ∧ FsRemote.get_data_path ⟨"/b"⟩ "G" "B" "S" ++ "/" ++ toString 3 ++ ".data.xz"
        = "/b/10/fs/G.fs/backup/B.backup/series/S.series/data/3.data.xz"
    ∧ ∀ (r : FsRemote) (k : Key String) (stream : List Nat) (p : String),
        FsRemote.put_data r k stream = some (p, Payload.lzmaStream stream)
          ∨ FsRemote.put_data r k stream = none := by
  refine ⟨rfl, rfl, rfl, rfl, rfl, rfl, ?_⟩
  intro r k stream p
  exact Or.inr rfl

/-- C8: `restore` first asks the discovery function (the remote's current-Meta
lookup) for `(fsguid, bid)` and fails with the not-found error when it is
absent; otherwise it pipes `remote.get_data` into the local receive against
the target name for `Key(fsguid, bid, sid, i)` with `i` ascending from 0 to
the terminal `n` inclusive. -/
theorem c8_restore_sequence (meta_discovery : String → String → Option (Meta String))
    (fsguid id_ fsname : String) :
    (meta_discovery fsguid id_ = none →
        restore meta_discovery fsguid id_ fsname = Except.error ())
    ∧ (∀ m, meta_discovery fsguid id_ = some m →
        restore meta_discovery fsguid id_ fsname
          = Except.ok ((List.range (m.key.n + 1)).map
              (fun i => (fsname, Key.from_key m.key (some i))))
        ∧ (m.key.fsguid = fsguid → m.key.id = id_ →
            restore meta_discovery fsguid id_ fsname
              = Except.ok ((List.range (m.key.n + 1)).map
                  (fun i => (fsname, (⟨fsguid, id_, m.key.sid, i⟩ : Key String)))))) := by
  have hloop : ∀ (base : Key String) (c : Nat), restoreLoop fsname base c
      = (List.range c).map (fun i => (fsname, Key.from_key base (some i))) := by
    intro base c
    induction c with
    | zero => rfl
    | succ m ih => rw [List.range_succ]; simp [restoreLoop, ih]
  constructor
  · intro h
    unfold restore
    rw [h]
  · intro m hm
    have h1 : restore meta_discovery fsguid id_ fsname
        = Except.ok (restoreLoop fsname m.key (m.key.n + 1)) := by
      unfold restore
      rw [hm]
    constructor
    · rw [h1, hloop]
    · intro hf hi
      rw [h1, hloop]
      have hfun : (fun i => (fsname, Key.from_key m.key (some i)))
          = (fun i => (fsname, (⟨fsguid, id_, m.key.sid, i⟩ : Key String))) := by
        funext i
        rw [show Key.from_key m.key (some i)
              = ⟨m.key.fsguid, m.key.id, m.key.sid, i⟩ from rfl, hf, hi]
      rw [hfun]

/-- Witness for C8 at a concrete discovery returning terminal n = 2. -/
theorem c8_restore_sequence_witness :
    restore (fun _ _ => some (demoMetaOf ⟨"g", "default", "s1", 2⟩)) "g" "default" "tgt"
      = Except.ok ((List.range ((demoMetaOf ⟨"g", "default", "s1", 2⟩).key.n + 1)).map
          (fun i => ("tgt", (⟨"g", "default",
              (demoMetaOf ⟨"g", "default", "s1", 2⟩).key.sid, i⟩ : Key String)))) :=
  ((c8_restore_sequence (fun _ _ => some (demoMetaOf ⟨"g", "default", "s1", 2⟩))
      "g" "default" "tgt").2 (demoMetaOf ⟨"g", "default", "s1", 2⟩) rfl).2 rfl rfl

/-- C9: contrary to the claim, `Backsnap.name` never produces the snapshot
name: it reads `metakey.id_`, an attribute `Meta.Key` does not bind (its
`__init__` binds `id`), so for every key the lookup raises `AttributeError`
and no name string is formed. -/
theorem c9_backsnap_name_attribute_error :
    ∀ k : Key String, Key.getattr k "id_" = none ∧ Backsnap.name k = none :=
  fun _ => ⟨rfl, rfl⟩

/-- C10: constructing the directory remote raises exactly when the root does
not begin with '/', and for an absolute root it succeeds recording
cfg = {'root': root}, the value `Backsnap.validate_remote` later compares
(together with the class tag 'fs'). -/
theorem c10_fsremote_root_validation (root : String) :
    (pyStartswith root "/" = false → FsRemote.create root = none)
    ∧ (pyStartswith root "/" = true →
        FsRemote.create root = some ⟨root⟩
        ∧ FsRemote.cfg ⟨root⟩ = [("root", root)]
        ∧ ∀ st : State String,
            (Backsnap.validate_remote st (FsRemote.remote ⟨root⟩) = Except.ok ()
              ↔ FsRemote.type_ = st.remote_type ∧ FsRemote.cfg ⟨root⟩ = st.remote_cfg)) := by
  constructor
  · intro h
    simp [FsRemote.create, h]
  · intro h
    refine ⟨by simp [FsRemote.create, h], rfl, ?_⟩
    intro st
    by_cases h1 : FsRemote.type_ = st.remote_type
    · by_cases h2 : FsRemote.cfg ⟨root⟩ = st.remote_cfg
      · simp [Backsnap.validate_remote, FsRemote.remote, h1, h2]
      · simp [Backsnap.validate_remote, FsRemote.remote, h1, h2]
    · simp [Backsnap.validate_remote, FsRemote.remote, h1]

/-- Witness for C10: a relative root is rejected, an absolute one accepted. -/
theorem c10_fsremote_root_validation_witness :
    FsRemote.create "backups" = none ∧ FsRemote.create "/backups" = some ⟨"/backups"⟩ :=
  ⟨(c10_fsremote_root_validation "backups").1 rfl,
   ((c10_fsremote_root_validation "/backups").2 rfl).1⟩

end Backer
